import Mathlib

/-!
Verification development for the btw_buddy bookkeeping backend.

This file gives a shallow embedding of the monetary core of the repository:
the invoice totals calculator (invoices/models.py, Invoice.calculate_totals),
the invoice line and status validators (api/serializers/invoice_serializers.py),
the transaction save hook (transactions/models.py, Transaction.save), and the
VAT return aggregator (vat_returns/models.py, VATReturn.calculate_vat_amounts
and VATReturn.save, together with the recalculate endpoint of
api/views/vat_returns_views.py).

Python Decimal values are modelled as exact rationals.  Python round(d, 2)
on a Decimal quantizes with ROUND_HALF_EVEN; it is modelled by round2 below.
The float() conversions and float additions the source performs when storing
the VAT breakdown are modelled exactly by toFloat and fadd below: binary64
round-to-nearest, ties to even, including the subnormal range (magnitudes at
and beyond 2 to the 1024, where IEEE overflows to infinity, are outside the
modelled range; the monetary columns are 12-digit decimals, far below it).
-/

/-- Nearest integer to a rational, ties to even: the rounding mode of
Python Decimal ROUND_HALF_EVEN applied by round(Decimal, n). -/
def rhe (q : ℚ) : ℤ :=
  if q - ⌊q⌋ < 1/2 then ⌊q⌋
  else if 1/2 < q - ⌊q⌋ then ⌊q⌋ + 1
  else if ⌊q⌋ % 2 = 0 then ⌊q⌋ else ⌊q⌋ + 1

/-- Python round(d, 2) on Decimal: half-even rounding to 2 decimal places. -/
def round2 (q : ℚ) : ℚ := (rhe (q * 100) : ℚ) / 100

/-- Python int() on a Decimal: truncation toward zero. -/
def truncToInt (q : ℚ) : ℤ := if 0 ≤ q then ⌊q⌋ else -⌊-q⌋

/-- IEEE 754 binary64 value nearest to a rational (ties to even): the scale
brings the magnitude into the 53-bit mantissa window (capped at the
subnormal quantum 2 to the -1074) and rhe rounds the scaled value.  This is
what Python float(Decimal) computes, and what a Python float arithmetic
result is rounded with. -/
def toFloat (q : ℚ) : ℚ :=
  if q = 0 then 0
  else
    (rhe (q * 2 ^ min (52 - Int.log 2 |q|) 1074) : ℚ) /
      2 ^ min (52 - Int.log 2 |q|) 1074

/-- Python float addition: the exact sum rounded back to binary64. -/
def fadd (a b : ℚ) : ℚ := toFloat (a + b)

/-- One invoice line as stored by InvoiceLine (invoices/models.py):
quantity, unit_price and vat_rate are Decimal columns.  The model itself
only bounds vat_rate to the range 0..100. -/
structure InvoiceLine where
  quantity : ℚ
  unit_price : ℚ
  vat_rate : ℚ
deriving DecidableEq

/-- Value of line.quantity * line.unit_price in Invoice.calculate_totals. -/
def lineTotal (l : InvoiceLine) : ℚ := l.quantity * l.unit_price

/-- Value of line_total * (line.vat_rate / Decimal(100)). -/
def lineVat (l : InvoiceLine) : ℚ := lineTotal l * (l.vat_rate / 100)

/-- One bucket of the vat_breakdown dict: the running amount and vat sums,
held as binary floats by the source. -/
structure Bucket where
  amount : ℚ
  vat : ℚ
deriving DecidableEq

/-- The vat_breakdown dict, as an association list keyed by the integer
rendered by str(int(line.vat_rate)). -/
abbrev Breakdown := List (ℤ × Bucket)

/-- Initial dict literal of calculate_totals:
vat_breakdown has exactly the keys 0, 9 and 21, all buckets zero. -/
def initBreakdown : Breakdown := [(0, ⟨0, 0⟩), (9, ⟨0, 0⟩), (21, ⟨0, 0⟩)]

/-- Body of the conditional update in calculate_totals: when rate_key is a
key of the dict, its bucket accumulates float(line_total) and float(line_vat)
by float addition; a missing key changes nothing (no key is ever inserted). -/
def updateBreakdown (bd : Breakdown) (k : ℤ) (amt vat : ℚ) : Breakdown :=
  bd.map (fun p =>
    if p.1 = k then
      (p.1, Bucket.mk (fadd p.2.amount (toFloat amt)) (fadd p.2.vat (toFloat vat)))
    else p)

/-- Breakdown accumulated over the loop of calculate_totals. -/
def breakdownOf (lines : List InvoiceLine) : Breakdown :=
  lines.foldl
    (fun bd l => updateBreakdown bd (truncToInt l.vat_rate) (lineTotal l) (lineVat l))
    initBreakdown

/-- Running subtotal accumulated over the loop, before the final rounding. -/
def rawSubtotal (lines : List InvoiceLine) : ℚ := (lines.map lineTotal).sum

/-- Running total_vat accumulated over the loop, before the final rounding. -/
def rawTotalVat (lines : List InvoiceLine) : ℚ := (lines.map lineVat).sum

/-- Derived fields written by Invoice.calculate_totals. -/
structure InvoiceTotals where
  subtotal : ℚ
  total_vat : ℚ
  total : ℚ
  vat_breakdown : Breakdown
deriving DecidableEq

/-- Invoice.calculate_totals (invoices/models.py lines 96-123): accumulate
line totals and line VATs, set total to the sum of the two unrounded
accumulators, store the float breakdown, then round subtotal, total_vat and
total to 2 decimal places. -/
def calculate_totals (lines : List InvoiceLine) : InvoiceTotals :=
  { subtotal := round2 (rawSubtotal lines)
    total_vat := round2 (rawTotalVat lines)
    total := round2 (rawSubtotal lines + rawTotalVat lines)
    vat_breakdown := breakdownOf lines }

/-- Key list of a breakdown dict. -/
def bdKeys (bd : Breakdown) : List ℤ := bd.map Prod.fst

/-- Sum of the amount components of all buckets. -/
def bdAmountSum (bd : Breakdown) : ℚ := (bd.map (fun p => p.2.amount)).sum

/-- Sum of the vat components of all buckets. -/
def bdVatSum (bd : Breakdown) : ℚ := (bd.map (fun p => p.2.vat)).sum

/-- Float accumulation of a list of exact values onto a running float, the
way one breakdown bucket component grows: each value is converted to a
float and added by float addition. -/
def accumFrom (a : ℚ) (xs : List ℚ) : ℚ :=
  xs.foldl (fun s x => fadd s (toFloat x)) a

/-- Float accumulation starting from the int 0 of the initial dict. -/
def floatAccum (xs : List ℚ) : ℚ := accumFrom 0 xs

/-- Amount component of the bucket stored under a key, zero for a missing
key. -/
def bucketAmount (bd : Breakdown) (k : ℤ) : ℚ :=
  match List.lookup k bd with
  | some b => b.amount
  | none => 0

/-- Vat component of the bucket stored under a key, zero for a missing
key. -/
def bucketVat (bd : Breakdown) (k : ℤ) : ℚ :=
  match List.lookup k bd with
  | some b => b.vat
  | none => 0

/-- InvoiceLineSerializer.validate_vat_rate: accept exactly the values equal
to Decimal 0.00, 9.00 or 21.00, otherwise raise a ValidationError. -/
def validate_vat_rate (value : ℚ) : Except String ℚ :=
  if value = 0 ∨ value = 9 ∨ value = 21 then Except.ok value
  else Except.error "VAT rate must be 0%, 9%, or 21% according to Dutch tax law."

/-- InvoiceLineSerializer.validate_quantity: quantity must be positive. -/
def validate_quantity (value : ℚ) : Except String ℚ :=
  if value ≤ 0 then Except.error "Quantity must be greater than zero."
  else Except.ok value

/-- InvoiceLineSerializer.validate_unit_price: unit price must be non-negative. -/
def validate_unit_price (value : ℚ) : Except String ℚ :=
  if value < 0 then Except.error "Unit price cannot be negative."
  else Except.ok value

/-- Field validation of one submitted line: every field validator must pass. -/
def validateLine (l : InvoiceLine) : Except String InvoiceLine :=
  match validate_quantity l.quantity with
  | Except.error e => Except.error e
  | Except.ok _ =>
    match validate_unit_price l.unit_price with
    | Except.error e => Except.error e
    | Except.ok _ =>
      match validate_vat_rate l.vat_rate with
      | Except.error e => Except.error e
      | Except.ok _ => Except.ok l

/-- InvoiceSerializer.create as driven by the API view: validate_lines
rejects an empty list, every line passes field validation, and only then are
the invoice totals computed from the lines. -/
def create_invoice (lines : List InvoiceLine) : Except String InvoiceTotals :=
  if lines.isEmpty then Except.error "Invoice must have at least one line item."
  else
    match lines.mapM validateLine with
    | Except.error e => Except.error e
    | Except.ok _ => Except.ok (calculate_totals lines)

/-- Status choices of the Invoice model. -/
def INVOICE_STATUSES : List String := ["draft", "sent", "paid", "overdue", "cancelled"]

/-- Allowed transitions dict of InvoiceStatusUpdateSerializer.validate_status,
with dict.get(current, []) for unknown keys. -/
def allowed_transitions (current : String) : List String :=
  if current = "draft" then ["sent", "cancelled"]
  else if current = "sent" then ["paid", "overdue", "cancelled"]
  else if current = "overdue" then ["paid", "cancelled"]
  else if current = "paid" then ["cancelled"]
  else []

/-- InvoiceStatusUpdateSerializer.validate_status: the requested value is
accepted exactly when it is an allowed transition from the current status;
otherwise a ValidationError naming both statuses is raised. -/
def validate_status (current value : String) : Except String String :=
  if value ∈ allowed_transitions current then Except.ok value
  else Except.error ("Cannot change status from " ++ current ++ " to " ++ value)

/-- The update_status endpoint of InvoiceViewSet: the ChoiceField first
rejects a value that is not a declared status at all, then
validate_status checks the transition. -/
def update_status (current value : String) : Except String String :=
  if value ∈ INVOICE_STATUSES then validate_status current value
  else Except.error "not a valid choice"

/-- Resulting stored status after the update_status endpoint: the new status
on success, the unchanged current status when validation failed. -/
def update_status_result (current value : String) : String :=
  match update_status current value with
  | Except.ok s => s
  | Except.error _ => current

/-- Calendar date, ordered lexicographically by year, month, day, which is
how the database compares DateField values in date__range lookups. -/
structure Date where
  year : ℕ
  month : ℕ
  day : ℕ
deriving DecidableEq

/-- Lexicographic order on dates. -/
def dateLE (a b : Date) : Prop :=
  a.year < b.year ∨
    (a.year = b.year ∧
      (a.month < b.month ∨ (a.month = b.month ∧ a.day ≤ b.day)))

instance (a b : Date) : Decidable (dateLE a b) := by
  unfold dateLE
  exact inferInstance

/-- One row of the transactions table, restricted to the fields the VAT
return aggregation and the save hook read.  The category foreign key is
modelled by the optional category name. -/
structure Transaction where
  date : Date
  amount : ℚ
  vat_rate : ℚ
  vat_amount : ℚ
  transaction_type : String
  category : Option String
deriving DecidableEq

/-- Transaction.save (transactions/models.py lines 98-113): overwrite
vat_amount with amount * vat_rate / 100 (both columns are non-null), force
transaction_type from the sign of amount, and keep the rest.  The receipt
bookkeeping of the hook is out of the modelled fields. -/
def Transaction.save (t : Transaction) : Transaction :=
  { t with
    vat_amount := t.amount * (t.vat_rate / 100)
    transaction_type := if t.amount < 0 then "expense" else "income" }

/-- VAT period choices of the VATReturn model. -/
inductive Period where
  | Q1
  | Q2
  | Q3
  | Q4
deriving DecidableEq

/-- The period_ranges dict of calculate_vat_amounts: first and last day of
the calendar quarter. -/
def period_range (p : Period) (year : ℕ) : Date × Date :=
  match p with
  | Period.Q1 => (⟨year, 1, 1⟩, ⟨year, 3, 31⟩)
  | Period.Q2 => (⟨year, 4, 1⟩, ⟨year, 6, 30⟩)
  | Period.Q3 => (⟨year, 7, 1⟩, ⟨year, 9, 30⟩)
  | Period.Q4 => (⟨year, 10, 1⟩, ⟨year, 12, 31⟩)

/-- Django filter category__name__icontains equals substring matching on the
lower-cased category name; a row with a null category never matches. -/
def containsEquipment (c : Option String) : Bool :=
  match c with
  | none => false
  | some name => decide (List.IsInfix "equipment".toList name.toLower.toList)

/-- The VATReturn row, restricted to the fields its model logic touches.
The pk flag models whether the row has been saved before (self.pk). -/
structure VATReturn where
  period : Period
  year : ℕ
  output_vat_standard : ℚ
  output_vat_reduced : ℚ
  output_vat_zero : ℚ
  input_vat_standard : ℚ
  input_vat_capital : ℚ
  sales_standard_rate : ℚ
  sales_reduced_rate : ℚ
  sales_zero_rate : ℚ
  purchases_standard_rate : ℚ
  purchases_capital : ℚ
  adjustments : ℚ
  previous_corrections : ℚ
  total_output_vat : ℚ
  total_input_vat : ℚ
  net_vat : ℚ
  status : String
  pk : Bool
deriving DecidableEq

/-- Date range filter of calculate_vat_amounts: the transactions whose date
lies between the period range bounds, inclusive on both ends
(date__range lookup). -/
def periodTransactions (p : Period) (year : ℕ) (txs : List Transaction) :
    List Transaction :=
  txs.filter (fun t =>
    decide (dateLE (period_range p year).1 t.date) &&
      decide (dateLE t.date (period_range p year).2))

/-- VATReturn.calculate_vat_amounts (vat_returns/models.py lines 77-140),
with txs standing for the user transaction table: select the transactions
whose date lies in the period range (inclusive), split them by
transaction_type, bucket income by the vat_rate tolerance bands
20.5..21.5, 8.5..9.5 and at most 0.1, bucket expenses by the standard band
and by the equipment category match, take absolute values of the expense
sums, and recompute the three totals. -/
def VATReturn.calculate_vat_amounts (vr : VATReturn) (txs : List Transaction) : VATReturn :=
  let inRange := periodTransactions vr.period vr.year txs
  let income := inRange.filter (fun t => t.transaction_type == "income")
  let expense := inRange.filter (fun t => t.transaction_type == "expense")
  let standard_income :=
    income.filter (fun t => decide ((20.5 : ℚ) ≤ t.vat_rate) && decide (t.vat_rate ≤ (21.5 : ℚ)))
  let reduced_income :=
    income.filter (fun t => decide ((8.5 : ℚ) ≤ t.vat_rate) && decide (t.vat_rate ≤ (9.5 : ℚ)))
  let zero_income := income.filter (fun t => decide (t.vat_rate ≤ (0.1 : ℚ)))
  let standard_expenses :=
    expense.filter (fun t => decide ((20.5 : ℚ) ≤ t.vat_rate) && decide (t.vat_rate ≤ (21.5 : ℚ)))
  let capital_expenses := expense.filter (fun t => containsEquipment t.category)
  let ovs := (standard_income.map Transaction.vat_amount).sum
  let ovr := (reduced_income.map Transaction.vat_amount).sum
  let ovz := (zero_income.map Transaction.vat_amount).sum
  let ivs := |(standard_expenses.map Transaction.vat_amount).sum|
  let ivc := |(capital_expenses.map Transaction.vat_amount).sum|
  { vr with
    sales_standard_rate := (standard_income.map Transaction.amount).sum
    output_vat_standard := ovs
    sales_reduced_rate := (reduced_income.map Transaction.amount).sum
    output_vat_reduced := ovr
    sales_zero_rate := (zero_income.map Transaction.amount).sum
    output_vat_zero := ovz
    purchases_standard_rate := |(standard_expenses.map Transaction.amount).sum|
    input_vat_standard := ivs
    purchases_capital := |(capital_expenses.map Transaction.amount).sum|
    input_vat_capital := ivc
    total_output_vat := ovs + ovr + ovz
    total_input_vat := ivs + ivc
    net_vat := (ovs + ovr + ovz) - (ivs + ivc) + vr.adjustments + vr.previous_corrections }

/-- VATReturn.save (vat_returns/models.py lines 142-147): recalculate the
amounts whenever the row is new or total_output_vat is zero, regardless of
status, then persist (the row now has a pk). -/
def VATReturn.save (vr : VATReturn) (txs : List Transaction) : VATReturn :=
  let vr2 := if vr.pk = false ∨ vr.total_output_vat = 0 then vr.calculate_vat_amounts txs else vr
  { vr2 with pk := true }

/-- The recalculate action of VATReturnViewSet
(api/views/vat_returns_views.py lines 160-178): a non-draft return is
rejected with an error and left untouched; a draft return is recalculated
and saved. -/
def recalculate (vr : VATReturn) (txs : List Transaction) : Except String VATReturn :=
  if vr.status ≠ "draft" then Except.error "Only draft returns can be recalculated"
  else Except.ok ((vr.calculate_vat_amounts txs).save txs)

/-- Spec-side quarter bounds: first and last month of a period. -/
def quarterMonths (p : Period) : ℕ × ℕ :=
  match p with
  | Period.Q1 => (1, 3)
  | Period.Q2 => (4, 6)
  | Period.Q3 => (7, 9)
  | Period.Q4 => (10, 12)

/-- Spec-side statement that a date lies in the calendar quarter of a period
and year (Q1 = Jan 1 to Mar 31, and so on, inclusive on both ends). -/
def inQuarter (p : Period) (year : ℕ) (d : Date) : Prop :=
  d.year = year ∧ (quarterMonths p).1 ≤ d.month ∧ d.month ≤ (quarterMonths p).2

instance (p : Period) (year : ℕ) (d : Date) : Decidable (inQuarter p year d) := by
  unfold inQuarter
  exact inferInstance

/-- Number of days of a month in the Gregorian calendar. -/
def daysInMonth (y m : ℕ) : ℕ :=
  if m = 2 then (if (y % 4 = 0 ∧ y % 100 ≠ 0) ∨ y % 400 = 0 then 29 else 28)
  else if m = 4 ∨ m = 6 ∨ m = 9 ∨ m = 11 then 30 else 31

/-- Calendar validity of a date. -/
def validDate (d : Date) : Prop :=
  1 ≤ d.month ∧ d.month ≤ 12 ∧ 1 ≤ d.day ∧ d.day ≤ daysInMonth d.year d.month

/-- Spec-side selection of the transactions of a calendar quarter. -/
def specQuarterTransactions (p : Period) (year : ℕ) (txs : List Transaction) :
    List Transaction :=
  txs.filter (fun t => decide (inQuarter p year t.date))

/-- Spec-side selection of income transactions. -/
def specIncome (txs : List Transaction) : List Transaction :=
  txs.filter (fun t => t.transaction_type == "income")

/-- Spec-side selection of expense transactions. -/
def specExpense (txs : List Transaction) : List Transaction :=
  txs.filter (fun t => t.transaction_type == "expense")

/-- Spec-side selection of a closed vat_rate tolerance band. -/
def specBand (lo hi : ℚ) (txs : List Transaction) : List Transaction :=
  txs.filter (fun t => decide (lo ≤ t.vat_rate) && decide (t.vat_rate ≤ hi))

/-- Sum of the amount column over a selection. -/
def sumAmount (txs : List Transaction) : ℚ := (txs.map Transaction.amount).sum

/-- Sum of the vat_amount column over a selection. -/
def sumVat (txs : List Transaction) : ℚ := (txs.map Transaction.vat_amount).sum

lemma rhe_eq (q : ℚ) (f : ℤ) (hf : ⌊q⌋ = f) :
    rhe q = if q - f < 1/2 then f
      else if 1/2 < q - f then f + 1
      else if f % 2 = 0 then f else f + 1 := by
  unfold rhe
  rw [hf]

lemma rhe_intCast (z : ℤ) : rhe z = z := by
  rw [rhe_eq (z : ℚ) z (Int.floor_intCast z)]
  norm_num

lemma round2_of_mul100_int (q : ℚ) (z : ℤ) (h : q * 100 = z) : round2 q = q := by
  rw [round2, h, rhe_intCast]
  field_simp
  linarith [h]

lemma mul100_int_of_round2_fixed (a : ℚ) (h : round2 a = a) : ∃ z : ℤ, a * 100 = z := by
  refine ⟨rhe (a * 100), ?_⟩
  rw [round2] at h
  field_simp at h
  linarith [h]

lemma round2_add_of_fixed (a b : ℚ) (ha : round2 a = a) (hb : round2 b = b) :
    round2 (a + b) = a + b := by
  obtain ⟨za, hza⟩ := mul100_int_of_round2_fixed a ha
  obtain ⟨zb, hzb⟩ := mul100_int_of_round2_fixed b hb
  refine round2_of_mul100_int _ (za + zb) ?_
  push_cast
  rw [add_mul, hza, hzb]

/-- C1: the claim fails on the code: for the single valid line with
quantity 0.05, unit price 19.90 and rate 21, the stored subtotal is 1.00,
the stored total_vat is 0.21, but the stored total is 1.20, because the
source rounds the total of the unrounded accumulators. -/
theorem invoice_total_rounding_cex :
    (calculate_totals [⟨1/20, 199/10, 21⟩]).total ≠
      (calculate_totals [⟨1/20, 199/10, 21⟩]).subtotal +
        (calculate_totals [⟨1/20, 199/10, 21⟩]).total_vat := by
  have hs : rawSubtotal [⟨1/20, 199/10, 21⟩] = 199/200 := by
    norm_num [rawSubtotal, lineTotal]
  have hv : rawTotalVat [⟨1/20, 199/10, 21⟩] = 4179/20000 := by
    norm_num [rawTotalVat, lineVat, lineTotal]
  have e1 : round2 ((199 : ℚ)/200) = 1 := by
    rw [round2, rhe_eq ((199 : ℚ)/200 * 100) 99 (by norm_num [Int.floor_eq_iff])]
    norm_num
  have e2 : round2 ((4179 : ℚ)/20000) = 21/100 := by
    rw [round2, rhe_eq ((4179 : ℚ)/20000 * 100) 20 (by norm_num [Int.floor_eq_iff])]
    norm_num
  have e3 : round2 ((199 : ℚ)/200 + 4179/20000) = 6/5 := by
    rw [round2, rhe_eq (((199 : ℚ)/200 + 4179/20000) * 100) 120 (by norm_num [Int.floor_eq_iff])]
    norm_num
  simp only [calculate_totals, hs, hv, e1, e2, e3]
  norm_num

/-- C1 (amended): the stored total is the half-even 2-decimal rounding of
the sum of the unrounded accumulators; whenever the unrounded subtotal and
unrounded VAT total are already exact at 2 decimals, the stored values
satisfy total = subtotal + total_vat. -/
theorem invoice_total_eq_sum_of_exact (lines : List InvoiceLine)
    (hs : round2 (rawSubtotal lines) = rawSubtotal lines)
    (hv : round2 (rawTotalVat lines) = rawTotalVat lines) :
    (calculate_totals lines).total =
      (calculate_totals lines).subtotal + (calculate_totals lines).total_vat := by
  simp only [calculate_totals, hs, hv, round2_add_of_fixed _ _ hs hv]

/-- C1 witness: the worked example of the spec, two lines (1, 100.00, 21)
and (2, 50.00, 9), has exact accumulators 200 and 30, and total 230
equals subtotal plus total_vat. -/
theorem invoice_total_eq_sum_witness :
    (calculate_totals [⟨1, 100, 21⟩, ⟨2, 50, 9⟩]).total =
      (calculate_totals [⟨1, 100, 21⟩, ⟨2, 50, 9⟩]).subtotal +
        (calculate_totals [⟨1, 100, 21⟩, ⟨2, 50, 9⟩]).total_vat := by
  refine invoice_total_eq_sum_of_exact _ ?_ ?_
  · have h : rawSubtotal [⟨1, 100, 21⟩, ⟨2, 50, 9⟩] = 200 := by
      norm_num [rawSubtotal, lineTotal]
    rw [h]
    exact round2_of_mul100_int _ 20000 (by norm_num)
  · have h : rawTotalVat [⟨1, 100, 21⟩, ⟨2, 50, 9⟩] = 30 := by
      norm_num [rawTotalVat, lineVat, lineTotal]
    rw [h]
    exact round2_of_mul100_int _ 3000 (by norm_num)

lemma updateBreakdown_keys (bd : Breakdown) (k : ℤ) (a v : ℚ) :
    bdKeys (updateBreakdown bd k a v) = bdKeys bd := by
  induction bd with
  | nil => rfl
  | cons p ps ih =>
    simp only [updateBreakdown, bdKeys, List.map_cons] at *
    rw [ih]
    congr 1
    split <;> rfl

lemma breakdownOf_keys (lines : List InvoiceLine) : bdKeys (breakdownOf lines) = [0, 9, 21] := by
  suffices h : ∀ bd : Breakdown,
      bdKeys (lines.foldl
        (fun bd l => updateBreakdown bd (truncToInt l.vat_rate) (lineTotal l) (lineVat l)) bd) =
      bdKeys bd by
    exact h initBreakdown
  induction lines with
  | nil => intro bd; rfl
  | cons l ls ih =>
    intro bd
    rw [List.foldl_cons, ih, updateBreakdown_keys]

lemma keys_structure (bd : Breakdown) (h : bdKeys bd = [0, 9, 21]) :
    ∃ b0 b9 b21, bd = [(0, b0), (9, b9), (21, b21)] := by
  rcases bd with _ | ⟨⟨k0, b0⟩, _ | ⟨⟨k9, b9⟩, _ | ⟨⟨k21, b21⟩, _ | ⟨p, rest⟩⟩⟩⟩ <;>
    simp [bdKeys] at h
  case _ =>
    exact ⟨b0, b9, b21, by simp [h.1, h.2.1, h.2.2]⟩

lemma initBreakdown_keys : bdKeys initBreakdown = [0, 9, 21] := rfl

lemma truncToInt_zero : truncToInt 0 = 0 := by
  norm_num [truncToInt, Int.floor_eq_iff]

lemma truncToInt_nine : truncToInt 9 = 9 := by
  norm_num [truncToInt, Int.floor_eq_iff]

lemma truncToInt_twentyone : truncToInt 21 = 21 := by
  norm_num [truncToInt, Int.floor_eq_iff]

lemma toFloat_eq_self (q : ℚ) (m t : ℤ) (hm : |m| < 2 ^ 53) (ht : t ≤ 1074)
    (hq : q = (m : ℚ) / 2 ^ t) : toFloat q = q := by
  by_cases h0 : q = 0
  · rw [h0, toFloat, if_pos rfl]
  · rw [toFloat, if_neg h0]
    have hq0 : (0:ℚ) < |q| := abs_pos.mpr h0
    have h2t : (0:ℚ) < 2 ^ t := by positivity
    have hmq : |(m : ℚ)| < 2 ^ (53:ℕ) := by exact_mod_cast hm
    have habs : |q| = |(m : ℚ)| / 2 ^ t := by
      rw [hq, abs_div, abs_of_pos h2t]
    have hlt : |q| < (2:ℚ) ^ ((53:ℤ) - t) := by
      rw [habs, zpow_sub₀ (by norm_num : (2:ℚ) ≠ 0)]
      gcongr
      exact_mod_cast hmq
    have hlog : Int.log 2 |q| < 53 - t := by
      refine (Int.lt_zpow_iff_log_lt (by norm_num) hq0).mp ?_
      exact_mod_cast hlt
    set s : ℤ := min (52 - Int.log 2 |q|) 1074 with hs
    have hts : t ≤ s := le_min (by omega) ht
    have hnn : ((s - t).toNat : ℤ) = s - t := Int.toNat_of_nonneg (by omega)
    have hz : q * 2 ^ s = ((m * 2 ^ (s - t).toNat : ℤ) : ℚ) := by
      push_cast
      rw [hq, div_mul_eq_mul_div, ← zpow_natCast (2:ℚ) (s - t).toNat, hnn,
        zpow_sub₀ (by norm_num : (2:ℚ) ≠ 0), mul_div_assoc]
    rw [hz, rhe_intCast, ← hz]
    exact mul_div_cancel_right₀ q (by positivity)

lemma lookup_updateBreakdown (bd : Breakdown) (k0 : ℤ) (a v : ℚ) (k : ℤ) :
    List.lookup k (updateBreakdown bd k0 a v) =
      (List.lookup k bd).map (fun b =>
        if k = k0 then Bucket.mk (fadd b.amount (toFloat a)) (fadd b.vat (toFloat v))
        else b) := by
  induction bd with
  | nil => rfl
  | cons p ps ih =>
    rcases p with ⟨p1, p2⟩
    have hpair : (if ((p1, p2) : ℤ × Bucket).1 = k0 then
        ((p1, p2).1, Bucket.mk (fadd (p1, p2).2.amount (toFloat a))
          (fadd (p1, p2).2.vat (toFloat v)))
        else (p1, p2)) =
        (p1, if p1 = k0 then
          Bucket.mk (fadd p2.amount (toFloat a)) (fadd p2.vat (toFloat v)) else p2) := by
      split <;> rfl
    simp only [updateBreakdown, List.map_cons] at ih ⊢
    rw [hpair]
    by_cases hb : k = p1
    · simp [List.lookup, hb]
    · simp [List.lookup, beq_eq_false_iff_ne.mpr hb, ih]

lemma bucketAmount_update (bd : Breakdown) (hk : bdKeys bd = [0, 9, 21])
    (k0 : ℤ) (a v : ℚ) (k : ℤ) (hkm : k = 0 ∨ k = 9 ∨ k = 21) :
    bucketAmount (updateBreakdown bd k0 a v) k =
      if k = k0 then fadd (bucketAmount bd k) (toFloat a) else bucketAmount bd k := by
  obtain ⟨b0, b9, b21, rfl⟩ := keys_structure bd hk
  obtain ⟨b, hb⟩ : ∃ b, List.lookup k [(0, b0), (9, b9), (21, b21)] = some b := by
    rcases hkm with rfl | rfl | rfl
    · exact ⟨b0, rfl⟩
    · exact ⟨b9, rfl⟩
    · exact ⟨b21, rfl⟩
  unfold bucketAmount
  rw [lookup_updateBreakdown, hb]
  by_cases hc : k = k0 <;> simp [hc]

lemma bucketVat_update (bd : Breakdown) (hk : bdKeys bd = [0, 9, 21])
    (k0 : ℤ) (a v : ℚ) (k : ℤ) (hkm : k = 0 ∨ k = 9 ∨ k = 21) :
    bucketVat (updateBreakdown bd k0 a v) k =
      if k = k0 then fadd (bucketVat bd k) (toFloat v) else bucketVat bd k := by
  obtain ⟨b0, b9, b21, rfl⟩ := keys_structure bd hk
  obtain ⟨b, hb⟩ : ∃ b, List.lookup k [(0, b0), (9, b9), (21, b21)] = some b := by
    rcases hkm with rfl | rfl | rfl
    · exact ⟨b0, rfl⟩
    · exact ⟨b9, rfl⟩
    · exact ⟨b21, rfl⟩
  unfold bucketVat
  rw [lookup_updateBreakdown, hb]
  by_cases hc : k = k0 <;> simp [hc]

lemma bucketAmount_foldl (lines : List InvoiceLine) :
    ∀ bd : Breakdown, bdKeys bd = [0, 9, 21] → ∀ k : ℤ, k = 0 ∨ k = 9 ∨ k = 21 →
    bucketAmount (lines.foldl
        (fun bd l => updateBreakdown bd (truncToInt l.vat_rate) (lineTotal l) (lineVat l))
        bd) k =
      accumFrom (bucketAmount bd k)
        ((lines.filter (fun l => truncToInt l.vat_rate == k)).map lineTotal) := by
  induction lines with
  | nil => intro bd _ k _; rfl
  | cons l ls ih =>
    intro bd hk k hkm
    rw [List.foldl_cons, ih _ (by rw [updateBreakdown_keys, hk]) k hkm,
      bucketAmount_update bd hk (truncToInt l.vat_rate) (lineTotal l) (lineVat l) k hkm]
    by_cases hc : k = truncToInt l.vat_rate
    · rw [if_pos hc]
      have hcb : (truncToInt l.vat_rate == k) = true := by simp [hc]
      simp only [List.filter_cons, hcb, if_true, List.map_cons]
      rfl
    · rw [if_neg hc]
      have hcb : (truncToInt l.vat_rate == k) = false :=
        beq_eq_false_iff_ne.mpr (fun h => hc h.symm)
      simp only [List.filter_cons, hcb, Bool.false_eq_true, if_false]

lemma bucketVat_foldl (lines : List InvoiceLine) :
    ∀ bd : Breakdown, bdKeys bd = [0, 9, 21] → ∀ k : ℤ, k = 0 ∨ k = 9 ∨ k = 21 →
    bucketVat (lines.foldl
        (fun bd l => updateBreakdown bd (truncToInt l.vat_rate) (lineTotal l) (lineVat l))
        bd) k =
      accumFrom (bucketVat bd k)
        ((lines.filter (fun l => truncToInt l.vat_rate == k)).map lineVat) := by
  induction lines with
  | nil => intro bd _ k _; rfl
  | cons l ls ih =>
    intro bd hk k hkm
    rw [List.foldl_cons, ih _ (by rw [updateBreakdown_keys, hk]) k hkm,
      bucketVat_update bd hk (truncToInt l.vat_rate) (lineTotal l) (lineVat l) k hkm]
    by_cases hc : k = truncToInt l.vat_rate
    · rw [if_pos hc]
      have hcb : (truncToInt l.vat_rate == k) = true := by simp [hc]
      simp only [List.filter_cons, hcb, if_true, List.map_cons]
      rfl
    · rw [if_neg hc]
      have hcb : (truncToInt l.vat_rate == k) = false :=
        beq_eq_false_iff_ne.mpr (fun h => hc h.symm)
      simp only [List.filter_cons, hcb, Bool.false_eq_true, if_false]

lemma bucketAmount_breakdownOf (lines : List InvoiceLine) (k : ℤ)
    (hkm : k = 0 ∨ k = 9 ∨ k = 21) :
    bucketAmount (breakdownOf lines) k =
      floatAccum ((lines.filter (fun l => truncToInt l.vat_rate == k)).map lineTotal) := by
  rw [breakdownOf, bucketAmount_foldl lines initBreakdown initBreakdown_keys k hkm]
  have h0 : bucketAmount initBreakdown k = 0 := by
    rcases hkm with rfl | rfl | rfl <;> rfl
  rw [h0]
  rfl

lemma bucketVat_breakdownOf (lines : List InvoiceLine) (k : ℤ)
    (hkm : k = 0 ∨ k = 9 ∨ k = 21) :
    bucketVat (breakdownOf lines) k =
      floatAccum ((lines.filter (fun l => truncToInt l.vat_rate == k)).map lineVat) := by
  rw [breakdownOf, bucketVat_foldl lines initBreakdown initBreakdown_keys k hkm]
  have h0 : bucketVat initBreakdown k = 0 := by
    rcases hkm with rfl | rfl | rfl <;> rfl
  rw [h0]
  rfl

lemma bdVatSum_eq_buckets (bd : Breakdown) (hk : bdKeys bd = [0, 9, 21]) :
    bdVatSum bd = bucketVat bd 0 + bucketVat bd 9 + bucketVat bd 21 := by
  obtain ⟨b0, b9, b21, rfl⟩ := keys_structure bd hk
  simp [bdVatSum, bucketVat, List.lookup]
  ring

lemma bdAmountSum_eq_buckets (bd : Breakdown) (hk : bdKeys bd = [0, 9, 21]) :
    bdAmountSum bd = bucketAmount bd 0 + bucketAmount bd 9 + bucketAmount bd 21 := by
  obtain ⟨b0, b9, b21, rfl⟩ := keys_structure bd hk
  simp [bdAmountSum, bucketAmount, List.lookup]
  ring

lemma sum_map_filter_partition (lines : List InvoiceLine) (f : InvoiceLine → ℚ)
    (hr : ∀ l ∈ lines, truncToInt l.vat_rate = 0 ∨ truncToInt l.vat_rate = 9 ∨
      truncToInt l.vat_rate = 21) :
    ((lines.filter (fun l => truncToInt l.vat_rate == 0)).map f).sum +
      ((lines.filter (fun l => truncToInt l.vat_rate == 9)).map f).sum +
      ((lines.filter (fun l => truncToInt l.vat_rate == 21)).map f).sum =
      (lines.map f).sum := by
  induction lines with
  | nil => simp
  | cons l ls ih =>
    have hrest : ∀ x ∈ ls, truncToInt x.vat_rate = 0 ∨ truncToInt x.vat_rate = 9 ∨
        truncToInt x.vat_rate = 21 := fun x hx => hr x (List.mem_cons_of_mem l hx)
    rcases hr l (List.mem_cons_self l ls) with h | h | h <;>
      simp [List.filter_cons, h, ← ih hrest] <;> ring

/-- C4: the claim fails on the code: the single line (quantity 1.25, unit
price 1.25, rate 21) has the exactly representable line VAT 0.328125, so
the 21 bucket stores the binary float 0.328125 exactly, while the stored
total_vat is the rounded 0.33. -/
theorem vat_breakdown_vat_sum_cex :
    bdVatSum ((calculate_totals [⟨5/4, 5/4, 21⟩]).vat_breakdown) ≠
      (calculate_totals [⟨5/4, 5/4, 21⟩]).total_vat := by
  have hv : lineVat ⟨5/4, 5/4, 21⟩ = 21/64 := by norm_num [lineVat, lineTotal]
  have hf : toFloat ((21:ℚ)/64) = 21/64 :=
    toFloat_eq_self _ 21 6 (by norm_num) (by norm_num) (by norm_num)
  have hb0 : bucketVat (breakdownOf [⟨5/4, 5/4, 21⟩]) 0 = 0 := by
    rw [bucketVat_breakdownOf _ 0 (Or.inl rfl)]
    norm_num [List.filter, truncToInt_twentyone, floatAccum, accumFrom,
      (by decide : (((21:ℤ) == 0) = false))]
  have hb9 : bucketVat (breakdownOf [⟨5/4, 5/4, 21⟩]) 9 = 0 := by
    rw [bucketVat_breakdownOf _ 9 (Or.inr (Or.inl rfl))]
    norm_num [List.filter, truncToInt_twentyone, floatAccum, accumFrom,
      (by decide : (((21:ℤ) == 9) = false))]
  have hb21 : bucketVat (breakdownOf [⟨5/4, 5/4, 21⟩]) 21 = 21/64 := by
    rw [bucketVat_breakdownOf _ 21 (Or.inr (Or.inr rfl))]
    simp [List.filter, truncToInt_twentyone, floatAccum, accumFrom, fadd, hv, hf,
      (by decide : (((21:ℤ) == 21) = true))]
  have hsum : bdVatSum ((calculate_totals [⟨5/4, 5/4, 21⟩]).vat_breakdown) = 21/64 := by
    rw [show (calculate_totals [⟨5/4, 5/4, 21⟩]).vat_breakdown =
        breakdownOf [⟨5/4, 5/4, 21⟩] from rfl,
      bdVatSum_eq_buckets _ (breakdownOf_keys [⟨5/4, 5/4, 21⟩]), hb0, hb9, hb21]
    norm_num
  have htv : (calculate_totals [⟨5/4, 5/4, 21⟩]).total_vat = 33/100 := by
    show round2 (rawTotalVat [⟨5/4, 5/4, 21⟩]) = _
    have hr : rawTotalVat [⟨5/4, 5/4, 21⟩] = 21/64 := by
      norm_num [rawTotalVat, lineVat, lineTotal]
    rw [hr, round2, rhe_eq ((21:ℚ)/64 * 100) 32 (by norm_num [Int.floor_eq_iff])]
    norm_num
  rw [hsum, htv]
  norm_num

/-- C4 (amended): when every line rate is one of 0, 9 or 21, each breakdown
bucket holds the binary-float accumulation of the bucketed line VATs;
whenever those float accumulations are exact (introduce no rounding) and
the unrounded VAT total is already exact at 2 decimal places, the bucket
vat components sum to the stored total_vat. -/
theorem vat_breakdown_vat_sum_eq_total_vat (lines : List InvoiceLine)
    (hr : ∀ l ∈ lines, l.vat_rate = 0 ∨ l.vat_rate = 9 ∨ l.vat_rate = 21)
    (hacc0 : floatAccum ((lines.filter (fun l => truncToInt l.vat_rate == 0)).map lineVat) =
      ((lines.filter (fun l => truncToInt l.vat_rate == 0)).map lineVat).sum)
    (hacc9 : floatAccum ((lines.filter (fun l => truncToInt l.vat_rate == 9)).map lineVat) =
      ((lines.filter (fun l => truncToInt l.vat_rate == 9)).map lineVat).sum)
    (hacc21 : floatAccum ((lines.filter (fun l => truncToInt l.vat_rate == 21)).map lineVat) =
      ((lines.filter (fun l => truncToInt l.vat_rate == 21)).map lineVat).sum)
    (hfix : round2 (rawTotalVat lines) = rawTotalVat lines) :
    bdVatSum ((calculate_totals lines).vat_breakdown) =
      (calculate_totals lines).total_vat := by
  have htr : ∀ l ∈ lines, truncToInt l.vat_rate = 0 ∨ truncToInt l.vat_rate = 9 ∨
      truncToInt l.vat_rate = 21 := by
    intro l hl
    rcases hr l hl with h | h | h
    · exact Or.inl (by rw [h]; exact truncToInt_zero)
    · exact Or.inr (Or.inl (by rw [h]; exact truncToInt_nine))
    · exact Or.inr (Or.inr (by rw [h]; exact truncToInt_twentyone))
  show bdVatSum (breakdownOf lines) = round2 (rawTotalVat lines)
  rw [bdVatSum_eq_buckets _ (breakdownOf_keys lines),
    bucketVat_breakdownOf lines 0 (Or.inl rfl),
    bucketVat_breakdownOf lines 9 (Or.inr (Or.inl rfl)),
    bucketVat_breakdownOf lines 21 (Or.inr (Or.inr rfl)),
    hacc0, hacc9, hacc21, sum_map_filter_partition lines lineVat htr, hfix]
  rfl

/-- C4 witness: the worked example of the spec, lines (1, 100.00, 21) and
(2, 50.00, 9), has integer line VATs 21 and 9, which binary floats hold
exactly, and the bucket vat components sum to the stored total_vat 30. -/
theorem vat_breakdown_vat_sum_witness :
    bdVatSum ((calculate_totals [⟨1, 100, 21⟩, ⟨2, 50, 9⟩]).vat_breakdown) =
      (calculate_totals [⟨1, 100, 21⟩, ⟨2, 50, 9⟩]).total_vat := by
  have hf9 : toFloat ((9:ℚ)) = 9 :=
    toFloat_eq_self _ 9 0 (by norm_num) (by norm_num) (by norm_num)
  have hf21 : toFloat ((21:ℚ)) = 21 :=
    toFloat_eq_self _ 21 0 (by norm_num) (by norm_num) (by norm_num)
  refine vat_breakdown_vat_sum_eq_total_vat _ ?_ ?_ ?_ ?_ ?_
  · intro l hl
    rcases List.mem_cons.mp hl with rfl | hl2
    · norm_num
    rcases List.mem_cons.mp hl2 with rfl | hl3
    · norm_num
    · exact absurd hl3 (List.not_mem_nil l)
  · norm_num [List.filter, truncToInt_twentyone, truncToInt_nine, floatAccum, accumFrom,
      (by decide : (((21:ℤ) == 0) = false)), (by decide : (((9:ℤ) == 0) = false))]
  · norm_num [List.filter, truncToInt_twentyone, truncToInt_nine, floatAccum, accumFrom,
      fadd, lineVat, lineTotal, hf9,
      (by decide : (((21:ℤ) == 9) = false)), (by decide : (((9:ℤ) == 9) = true))]
  · norm_num [List.filter, truncToInt_twentyone, truncToInt_nine, floatAccum, accumFrom,
      fadd, lineVat, lineTotal, hf21,
      (by decide : (((21:ℤ) == 21) = true)), (by decide : (((9:ℤ) == 21) = false))]
  · have h : rawTotalVat [⟨1, 100, 21⟩, ⟨2, 50, 9⟩] = 30 := by
      norm_num [rawTotalVat, lineVat, lineTotal]
    rw [h]
    exact round2_of_mul100_int _ 3000 (by norm_num)

/-- C10: the claim fails on the code: the line (1, 100.00, 9.50) has a
vat_rate outside the set 0, 9, 21, yet str(int(9.50)) is the key 9, so the
line IS added to the 9 bucket (100 is a binary-exact amount), and here the
bucket amounts do sum to the subtotal. -/
theorem vat_breakdown_trunc_bucket_cex :
    ((19 : ℚ)/2 ≠ 0 ∧ (19 : ℚ)/2 ≠ 9 ∧ (19 : ℚ)/2 ≠ 21) ∧
    bdAmountSum ((calculate_totals [⟨1, 100, 19/2⟩]).vat_breakdown) = 100 ∧
    bdAmountSum ((calculate_totals [⟨1, 100, 19/2⟩]).vat_breakdown) =
      (calculate_totals [⟨1, 100, 19/2⟩]).subtotal := by
  have ht : truncToInt ((19 : ℚ)/2) = 9 := by
    norm_num [truncToInt, Int.floor_eq_iff]
  have hlt : lineTotal ⟨1, 100, 19/2⟩ = 100 := by norm_num [lineTotal]
  have hf : toFloat ((100:ℚ)) = 100 :=
    toFloat_eq_self _ 100 0 (by norm_num) (by norm_num) (by norm_num)
  have hb0 : bucketAmount (breakdownOf [⟨1, 100, 19/2⟩]) 0 = 0 := by
    rw [bucketAmount_breakdownOf _ 0 (Or.inl rfl)]
    norm_num [List.filter, ht, floatAccum, accumFrom,
      (by decide : (((9:ℤ) == 0) = false))]
  have hb9 : bucketAmount (breakdownOf [⟨1, 100, 19/2⟩]) 9 = 100 := by
    rw [bucketAmount_breakdownOf _ 9 (Or.inr (Or.inl rfl))]
    simp [List.filter, ht, floatAccum, accumFrom, fadd, hlt, hf,
      (by decide : (((9:ℤ) == 9) = true))]
  have hb21 : bucketAmount (breakdownOf [⟨1, 100, 19/2⟩]) 21 = 0 := by
    rw [bucketAmount_breakdownOf _ 21 (Or.inr (Or.inr rfl))]
    norm_num [List.filter, ht, floatAccum, accumFrom,
      (by decide : (((9:ℤ) == 21) = false))]
  have hsum : bdAmountSum ((calculate_totals [⟨1, 100, 19/2⟩]).vat_breakdown) = 100 := by
    rw [show (calculate_totals [⟨1, 100, 19/2⟩]).vat_breakdown =
        breakdownOf [⟨1, 100, 19/2⟩] from rfl,
      bdAmountSum_eq_buckets _ (breakdownOf_keys [⟨1, 100, 19/2⟩]), hb0, hb9, hb21]
    norm_num
  have hsub : (calculate_totals [⟨1, 100, 19/2⟩]).subtotal = 100 := by
    show round2 (rawSubtotal [⟨1, 100, 19/2⟩]) = _
    have hs : rawSubtotal [⟨1, 100, 19/2⟩] = 100 := by
      norm_num [rawSubtotal, lineTotal]
    rw [hs]
    exact round2_of_mul100_int _ 10000 (by norm_num)
  exact ⟨by norm_num, hsum, by rw [hsum, hsub]⟩

/-- C10 (amended): the breakdown always has exactly the keys 0, 9, 21; each
bucket holds the binary-float accumulation of the line totals of exactly
the lines whose integer-truncated rate names that bucket, so a line whose
truncation is not 0, 9 or 21 is added to no bucket, while every line
contributes to the subtotal and VAT accumulators. -/
theorem vat_breakdown_keys_and_bucketing (lines : List InvoiceLine) :
    bdKeys ((calculate_totals lines).vat_breakdown) = [0, 9, 21] ∧
    bucketAmount ((calculate_totals lines).vat_breakdown) 0 =
      floatAccum ((lines.filter (fun l => truncToInt l.vat_rate == 0)).map lineTotal) ∧
    bucketAmount ((calculate_totals lines).vat_breakdown) 9 =
      floatAccum ((lines.filter (fun l => truncToInt l.vat_rate == 9)).map lineTotal) ∧
    bucketAmount ((calculate_totals lines).vat_breakdown) 21 =
      floatAccum ((lines.filter (fun l => truncToInt l.vat_rate == 21)).map lineTotal) ∧
    (calculate_totals lines).subtotal = round2 ((lines.map lineTotal).sum) ∧
    (calculate_totals lines).total_vat = round2 ((lines.map lineVat).sum) :=
  ⟨breakdownOf_keys lines,
    bucketAmount_breakdownOf lines 0 (Or.inl rfl),
    bucketAmount_breakdownOf lines 9 (Or.inr (Or.inl rfl)),
    bucketAmount_breakdownOf lines 21 (Or.inr (Or.inr rfl)),
    rfl, rfl⟩


lemma validateLine_error_of_bad_rate (l : InvoiceLine)
    (h0 : l.vat_rate ≠ 0) (h9 : l.vat_rate ≠ 9) (h21 : l.vat_rate ≠ 21) :
    ∃ e, validateLine l = Except.error e := by
  have hbad : ¬(l.vat_rate = 0 ∨ l.vat_rate = 9 ∨ l.vat_rate = 21) := by tauto
  unfold validateLine validate_quantity validate_unit_price validate_vat_rate
  split_ifs <;> exact ⟨_, rfl⟩

lemma mapM_error_of_mem (lines : List InvoiceLine) (l : InvoiceLine)
    (hl : l ∈ lines) (h : ∃ e, validateLine l = Except.error e) :
    ∃ e, lines.mapM validateLine = Except.error e := by
  induction lines with
  | nil => cases hl
  | cons a ls ih =>
    rcases List.mem_cons.mp hl with rfl | hmem
    · obtain ⟨e, he⟩ := h
      refine ⟨e, ?_⟩
      rw [List.mapM_cons, he]
      rfl
    · cases hva : validateLine a with
      | error e =>
        refine ⟨e, ?_⟩
        rw [List.mapM_cons, hva]
        rfl
      | ok b =>
        obtain ⟨e, he⟩ := ih hmem
        refine ⟨e, ?_⟩
        rw [List.mapM_cons, hva, he]
        rfl

/-- C8: a submitted line whose vat_rate is not 0, 9 or 21 makes the
invoice-creation pipeline fail with a validation error, raised before any
totals are computed, so no such line is absorbed into totals. -/
theorem invoice_line_bad_rate_rejected (lines : List InvoiceLine) (l : InvoiceLine)
    (hl : l ∈ lines)
    (h0 : l.vat_rate ≠ 0) (h9 : l.vat_rate ≠ 9) (h21 : l.vat_rate ≠ 21) :
    ∃ e, create_invoice lines = Except.error e := by
  unfold create_invoice
  split_ifs with hempty
  · exact ⟨_, rfl⟩
  · obtain ⟨e, he⟩ := mapM_error_of_mem lines l hl
      (validateLine_error_of_bad_rate l h0 h9 h21)
    rw [he]
    exact ⟨e, rfl⟩

/-- C8 witness: a single line with rate 5 is rejected by invoice creation. -/
theorem invoice_line_bad_rate_rejected_witness :
    ∃ e, create_invoice [⟨1, 100, 5⟩] = Except.error e :=
  invoice_line_bad_rate_rejected [⟨1, 100, 5⟩] ⟨1, 100, 5⟩ (by simp)
    (by norm_num) (by norm_num) (by norm_num)

/-- C6: through the status-update endpoint, a requested status is accepted
exactly when the pair (current, requested) is in the allowed transition
table; otherwise the validation error names both statuses and the stored
status is unchanged.  The table is the one of the claim. -/
theorem invoice_status_transition (current value : String)
    (hv : value ∈ INVOICE_STATUSES) :
    (update_status current value = Except.ok value ↔
      value ∈ allowed_transitions current) ∧
    (value ∉ allowed_transitions current →
      update_status current value =
        Except.error ("Cannot change status from " ++ current ++ " to " ++ value) ∧
      update_status_result current value = current) ∧
    allowed_transitions "draft" = ["sent", "cancelled"] ∧
    allowed_transitions "sent" = ["paid", "overdue", "cancelled"] ∧
    allowed_transitions "overdue" = ["paid", "cancelled"] ∧
    allowed_transitions "paid" = ["cancelled"] ∧
    allowed_transitions "cancelled" = [] := by
  by_cases hmem : value ∈ allowed_transitions current
  · refine ⟨⟨fun _ => hmem, fun _ => ?_⟩, fun hc => absurd hmem hc,
      by decide, by decide, by decide, by decide, by decide⟩
    unfold update_status validate_status
    rw [if_pos hv, if_pos hmem]
  · have herr : update_status current value =
        Except.error ("Cannot change status from " ++ current ++ " to " ++ value) := by
      unfold update_status validate_status
      rw [if_pos hv, if_neg hmem]
    refine ⟨⟨fun h => ?_, fun h => absurd h hmem⟩, fun _ => ⟨herr, ?_⟩,
      by decide, by decide, by decide, by decide, by decide⟩
    · rw [herr] at h
      exact Except.noConfusion h
    · unfold update_status_result
      rw [herr]

/-- C6 witness: the transition from sent to paid is among the declared
statuses and the theorem instantiates at it. -/
theorem invoice_status_transition_witness :
    (update_status "sent" "paid" = Except.ok "paid" ↔
      "paid" ∈ allowed_transitions "sent") ∧
    ("paid" ∉ allowed_transitions "sent" →
      update_status "sent" "paid" =
        Except.error ("Cannot change status from " ++ "sent" ++ " to " ++ "paid") ∧
      update_status_result "sent" "paid" = "sent") ∧
    allowed_transitions "draft" = ["sent", "cancelled"] ∧
    allowed_transitions "sent" = ["paid", "overdue", "cancelled"] ∧
    allowed_transitions "overdue" = ["paid", "cancelled"] ∧
    allowed_transitions "paid" = ["cancelled"] ∧
    allowed_transitions "cancelled" = [] :=
  invoice_status_transition "sent" "paid" (by decide)

/-- C9: Transaction.save derives transaction_type from the sign of amount
(negative is expense, zero or positive is income), overwrites vat_amount
with amount times vat_rate over 100, leaves the other fields alone, and
ignores whatever transaction_type and vat_amount the caller supplied. -/
theorem transaction_save_forces_derived (t : Transaction) :
    ((t.save).transaction_type = "expense" ↔ t.amount < 0) ∧
    ((t.save).transaction_type = "income" ↔ 0 ≤ t.amount) ∧
    (t.save).vat_amount = t.amount * (t.vat_rate / 100) ∧
    (t.save).date = t.date ∧ (t.save).amount = t.amount ∧
    (t.save).vat_rate = t.vat_rate ∧ (t.save).category = t.category ∧
    (∀ vt : ℚ, ∀ ty : String,
      Transaction.save { t with vat_amount := vt, transaction_type := ty } = t.save) := by
  have hty : (t.save).transaction_type = if t.amount < 0 then "expense" else "income" := rfl
  refine ⟨?_, ?_, rfl, rfl, rfl, rfl, rfl, fun vt ty => rfl⟩
  · rw [hty]
    by_cases h : t.amount < 0
    · rw [if_pos h]
      exact iff_of_true rfl h
    · rw [if_neg h]
      exact iff_of_false (by decide) h
  · rw [hty]
    by_cases h : t.amount < 0
    · rw [if_pos h]
      exact iff_of_false (by decide) (not_le.mpr h)
    · rw [if_neg h]
      exact iff_of_true rfl (not_lt.mp h)

instance (d : Date) : Decidable (validDate d) := by
  unfold validDate
  exact inferInstance

lemma daysInMonth_le_31 (y m : ℕ) : daysInMonth y m ≤ 31 := by
  unfold daysInMonth
  split_ifs <;> omega

lemma inRange_iff_inQuarter (p : Period) (y : ℕ) (d : Date) (hv : validDate d) :
    (dateLE (period_range p y).1 d ∧ dateLE d (period_range p y).2) ↔ inQuarter p y d := by
  obtain ⟨h1, h2, h3, h4⟩ := hv
  have h31 := daysInMonth_le_31 d.year d.month
  have h6 : d.month = 6 → d.day ≤ 30 := by
    intro hm
    rw [hm] at h4
    simpa [daysInMonth] using h4
  have h9 : d.month = 9 → d.day ≤ 30 := by
    intro hm
    rw [hm] at h4
    simpa [daysInMonth] using h4
  cases p <;> simp only [period_range, inQuarter, quarterMonths, dateLE] <;> omega

lemma periodTransactions_eq_quarter (p : Period) (y : ℕ) (txs : List Transaction)
    (hv : ∀ t ∈ txs, validDate t.date) :
    periodTransactions p y txs = specQuarterTransactions p y txs := by
  unfold periodTransactions specQuarterTransactions
  apply List.filter_congr
  intro t ht
  rw [← Bool.decide_and]
  exact decide_eq_decide.mpr (inRange_iff_inQuarter p y t.date (hv t ht))

/-- C3: calculate_vat_amounts aggregates exactly the transactions dated in
the calendar quarter of the period and year (inclusive on both ends), and
buckets the income transactions among them by the vat_rate bands
20.5..21.5, 8.5..9.5 and at most 0.1, each bucket summing amount into the
sales field and vat_amount into the output VAT field. -/
theorem vat_return_income_bucketing (vr : VATReturn) (txs : List Transaction)
    (hv : ∀ t ∈ txs, validDate t.date) :
    (vr.calculate_vat_amounts txs).sales_standard_rate =
      sumAmount (specBand 20.5 21.5
        (specIncome (specQuarterTransactions vr.period vr.year txs))) ∧
    (vr.calculate_vat_amounts txs).output_vat_standard =
      sumVat (specBand 20.5 21.5
        (specIncome (specQuarterTransactions vr.period vr.year txs))) ∧
    (vr.calculate_vat_amounts txs).sales_reduced_rate =
      sumAmount (specBand 8.5 9.5
        (specIncome (specQuarterTransactions vr.period vr.year txs))) ∧
    (vr.calculate_vat_amounts txs).output_vat_reduced =
      sumVat (specBand 8.5 9.5
        (specIncome (specQuarterTransactions vr.period vr.year txs))) ∧
    (vr.calculate_vat_amounts txs).sales_zero_rate =
      sumAmount ((specIncome (specQuarterTransactions vr.period vr.year txs)).filter
        (fun t => decide (t.vat_rate ≤ (0.1 : ℚ)))) ∧
    (vr.calculate_vat_amounts txs).output_vat_zero =
      sumVat ((specIncome (specQuarterTransactions vr.period vr.year txs)).filter
        (fun t => decide (t.vat_rate ≤ (0.1 : ℚ)))) := by
  have hq := periodTransactions_eq_quarter vr.period vr.year txs hv
  refine ⟨?_, ?_, ?_, ?_, ?_, ?_⟩ <;>
    simp only [VATReturn.calculate_vat_amounts, hq, specBand, specIncome, sumAmount,
      sumVat]

/-- C2: calculate_vat_amounts sets the purchase fields to the absolute
values of the sums over the expense transactions of the quarter, the standard
bucket by the 20.5..21.5 band and the capital bucket by the case-insensitive
equipment substring match on the category name with no rate condition, and
recomputes total_output_vat, total_input_vat and net_vat by the stated
formulas. -/
theorem vat_return_expense_and_totals (vr : VATReturn) (txs : List Transaction)
    (hv : ∀ t ∈ txs, validDate t.date) :
    (vr.calculate_vat_amounts txs).purchases_standard_rate =
      |sumAmount (specBand 20.5 21.5
        (specExpense (specQuarterTransactions vr.period vr.year txs)))| ∧
    (vr.calculate_vat_amounts txs).input_vat_standard =
      |sumVat (specBand 20.5 21.5
        (specExpense (specQuarterTransactions vr.period vr.year txs)))| ∧
    (vr.calculate_vat_amounts txs).purchases_capital =
      |sumAmount ((specExpense (specQuarterTransactions vr.period vr.year txs)).filter
        (fun t => containsEquipment t.category))| ∧
    (vr.calculate_vat_amounts txs).input_vat_capital =
      |sumVat ((specExpense (specQuarterTransactions vr.period vr.year txs)).filter
        (fun t => containsEquipment t.category))| ∧
    (vr.calculate_vat_amounts txs).total_output_vat =
      (vr.calculate_vat_amounts txs).output_vat_standard +
        (vr.calculate_vat_amounts txs).output_vat_reduced +
        (vr.calculate_vat_amounts txs).output_vat_zero ∧
    (vr.calculate_vat_amounts txs).total_input_vat =
      (vr.calculate_vat_amounts txs).input_vat_standard +
        (vr.calculate_vat_amounts txs).input_vat_capital ∧
    (vr.calculate_vat_amounts txs).net_vat =
      (vr.calculate_vat_amounts txs).total_output_vat -
        (vr.calculate_vat_amounts txs).total_input_vat +
        vr.adjustments + vr.previous_corrections := by
  have hq := periodTransactions_eq_quarter vr.period vr.year txs hv
  refine ⟨?_, ?_, ?_, ?_, ?_, ?_, ?_⟩ <;>
    simp only [VATReturn.calculate_vat_amounts, hq, specBand, specExpense, sumAmount,
      sumVat]

/-- Concrete date used by the witnesses: 1 February 2025, a valid date in
Q1 2025. -/
def sampleDate : Date := ⟨2025, 2, 1⟩

/-- Concrete income transaction of the spec example: amount 1000, rate 21,
vat_amount 210, dated inside Q1 2025. -/
def sampleIncomeTx : Transaction := ⟨sampleDate, 1000, 21, 210, "income", none⟩

/-- Concrete draft VAT return for Q1 2025 with all stored sums zero. -/
def sampleReturn : VATReturn :=
  ⟨Period.Q1, 2025, 0, 0, 0, 0, 0, 0, 0, 0, 0, 0, 0, 0, 0, 0, 0, "draft", true⟩

/-- C3 witness: the income bucketing equations instantiated at the Q1 2025
draft return and the singleton transaction list of the spec example. -/
theorem vat_return_income_bucketing_witness :
    (sampleReturn.calculate_vat_amounts [sampleIncomeTx]).sales_standard_rate =
      sumAmount (specBand 20.5 21.5
        (specIncome (specQuarterTransactions sampleReturn.period sampleReturn.year
          [sampleIncomeTx]))) ∧
    (sampleReturn.calculate_vat_amounts [sampleIncomeTx]).output_vat_standard =
      sumVat (specBand 20.5 21.5
        (specIncome (specQuarterTransactions sampleReturn.period sampleReturn.year
          [sampleIncomeTx]))) ∧
    (sampleReturn.calculate_vat_amounts [sampleIncomeTx]).sales_reduced_rate =
      sumAmount (specBand 8.5 9.5
        (specIncome (specQuarterTransactions sampleReturn.period sampleReturn.year
          [sampleIncomeTx]))) ∧
    (sampleReturn.calculate_vat_amounts [sampleIncomeTx]).output_vat_reduced =
      sumVat (specBand 8.5 9.5
        (specIncome (specQuarterTransactions sampleReturn.period sampleReturn.year
          [sampleIncomeTx]))) ∧
    (sampleReturn.calculate_vat_amounts [sampleIncomeTx]).sales_zero_rate =
      sumAmount ((specIncome (specQuarterTransactions sampleReturn.period
        sampleReturn.year [sampleIncomeTx])).filter
          (fun t => decide (t.vat_rate ≤ (0.1 : ℚ)))) ∧
    (sampleReturn.calculate_vat_amounts [sampleIncomeTx]).output_vat_zero =
      sumVat ((specIncome (specQuarterTransactions sampleReturn.period
        sampleReturn.year [sampleIncomeTx])).filter
          (fun t => decide (t.vat_rate ≤ (0.1 : ℚ)))) :=
  vat_return_income_bucketing sampleReturn [sampleIncomeTx]
    (by intro t ht; rw [List.mem_singleton.mp ht]; decide)

/-- C2 witness: the expense and totals equations instantiated at the Q1 2025
draft return and the singleton transaction list of the spec example. -/
theorem vat_return_expense_and_totals_witness :
    (sampleReturn.calculate_vat_amounts [sampleIncomeTx]).purchases_standard_rate =
      |sumAmount (specBand 20.5 21.5
        (specExpense (specQuarterTransactions sampleReturn.period sampleReturn.year
          [sampleIncomeTx])))| ∧
    (sampleReturn.calculate_vat_amounts [sampleIncomeTx]).input_vat_standard =
      |sumVat (specBand 20.5 21.5
        (specExpense (specQuarterTransactions sampleReturn.period sampleReturn.year
          [sampleIncomeTx])))| ∧
    (sampleReturn.calculate_vat_amounts [sampleIncomeTx]).purchases_capital =
      |sumAmount ((specExpense (specQuarterTransactions sampleReturn.period
        sampleReturn.year [sampleIncomeTx])).filter
          (fun t => containsEquipment t.category))| ∧
    (sampleReturn.calculate_vat_amounts [sampleIncomeTx]).input_vat_capital =
      |sumVat ((specExpense (specQuarterTransactions sampleReturn.period
        sampleReturn.year [sampleIncomeTx])).filter
          (fun t => containsEquipment t.category))| ∧
    (sampleReturn.calculate_vat_amounts [sampleIncomeTx]).total_output_vat =
      (sampleReturn.calculate_vat_amounts [sampleIncomeTx]).output_vat_standard +
        (sampleReturn.calculate_vat_amounts [sampleIncomeTx]).output_vat_reduced +
        (sampleReturn.calculate_vat_amounts [sampleIncomeTx]).output_vat_zero ∧
    (sampleReturn.calculate_vat_amounts [sampleIncomeTx]).total_input_vat =
      (sampleReturn.calculate_vat_amounts [sampleIncomeTx]).input_vat_standard +
        (sampleReturn.calculate_vat_amounts [sampleIncomeTx]).input_vat_capital ∧
    (sampleReturn.calculate_vat_amounts [sampleIncomeTx]).net_vat =
      (sampleReturn.calculate_vat_amounts [sampleIncomeTx]).total_output_vat -
        (sampleReturn.calculate_vat_amounts [sampleIncomeTx]).total_input_vat +
        sampleReturn.adjustments + sampleReturn.previous_corrections :=
  vat_return_expense_and_totals sampleReturn [sampleIncomeTx]
    (by intro t ht; rw [List.mem_singleton.mp ht]; decide)

/-- C7: recalculating a draft return twice against an unchanged transaction
list equals recalculating it once: the procedure overwrites every derived
field from the current transactions, reading back none of them. -/
theorem vat_return_recalculation_idempotent (vr : VATReturn) (txs : List Transaction)
    (hd : vr.status = "draft") :
    (vr.calculate_vat_amounts txs).calculate_vat_amounts txs =
      vr.calculate_vat_amounts txs := by
  cases vr
  rfl

/-- C7 witness: idempotence instantiated at the Q1 2025 draft return and the
singleton transaction list. -/
theorem vat_return_recalculation_idempotent_witness :
    (sampleReturn.calculate_vat_amounts [sampleIncomeTx]).calculate_vat_amounts
        [sampleIncomeTx] =
      sampleReturn.calculate_vat_amounts [sampleIncomeTx] :=
  vat_return_recalculation_idempotent sampleReturn [sampleIncomeTx] rfl

/-- Concrete submitted VAT return whose stored total_output_vat is zero. -/
def submittedZeroReturn : VATReturn :=
  ⟨Period.Q1, 2025, 0, 0, 0, 0, 0, 0, 0, 0, 0, 0, 0, 0, 0, 0, 0, "submitted", true⟩

/-- Concrete submitted VAT return whose stored total_output_vat is 5. -/
def submittedNonzeroReturn : VATReturn :=
  ⟨Period.Q1, 2025, 0, 0, 0, 0, 0, 0, 0, 0, 0, 0, 0, 0, 5, 0, 0, "submitted", true⟩

/-- C5: the claim fails on the code: a submitted return with
total_output_vat equal to zero is recalculated by VATReturn.save, so saving
it after a new transaction appears changes its stored derived fields. -/
theorem vat_return_frozen_cex :
    submittedZeroReturn.status = "submitted" ∧
    (submittedZeroReturn.save [sampleIncomeTx]).output_vat_standard ≠
      submittedZeroReturn.output_vat_standard := by
  refine ⟨rfl, ?_⟩
  show (VATReturn.save _ _).output_vat_standard ≠ 0
  unfold VATReturn.save
  have hcond : submittedZeroReturn.pk = false ∨ submittedZeroReturn.total_output_vat = 0 :=
    Or.inr rfl
  rw [if_pos hcond]
  show (submittedZeroReturn.calculate_vat_amounts [sampleIncomeTx]).output_vat_standard ≠ 0
  have h : (submittedZeroReturn.calculate_vat_amounts [sampleIncomeTx]).output_vat_standard
      = 210 := by
    norm_num [VATReturn.calculate_vat_amounts, periodTransactions, submittedZeroReturn,
      sampleIncomeTx, sampleDate, dateLE, period_range, List.filter]
  rw [h]
  norm_num

/-- C5 (amended): the recalculate endpoint rejects every non-draft return
with an error and leaves it unchanged, and VATReturn.save leaves an already
persisted return whose total_output_vat is nonzero unchanged; only when
total_output_vat is zero does save recalculate regardless of status. -/
theorem vat_return_nondraft_frozen (vr : VATReturn) (txs : List Transaction)
    (hnd : vr.status ≠ "draft") (hpk : vr.pk = true) (hnz : vr.total_output_vat ≠ 0) :
    recalculate vr txs = Except.error "Only draft returns can be recalculated" ∧
    vr.save txs = vr := by
  constructor
  · unfold recalculate
    rw [if_pos hnd]
  · unfold VATReturn.save
    have hc : ¬(vr.pk = false ∨ vr.total_output_vat = 0) := by
      rintro (h | h)
      · rw [hpk] at h
        exact Bool.noConfusion h
      · exact hnz h
    rw [if_neg hc]
    rcases vr with ⟨p, y, a1, a2, a3, a4, a5, a6, a7, a8, a9, a10, a11, a12, a13, a14,
      a15, st, pk⟩
    cases pk
    · exact Bool.noConfusion hpk
    · rfl

/-- C5 witness: the submitted return with nonzero total_output_vat is
rejected by the recalculate endpoint and unchanged by save. -/
theorem vat_return_nondraft_frozen_witness :
    recalculate submittedNonzeroReturn [] =
      Except.error "Only draft returns can be recalculated" ∧
    submittedNonzeroReturn.save [] = submittedNonzeroReturn :=
  vat_return_nondraft_frozen submittedNonzeroReturn [] (by decide) rfl
    (by norm_num [submittedNonzeroReturn])
